import Mathlib

/-!
# Verification of the adaptive interval allocation engine

Shallow embedding of `allocation_calculator.py` from the resource-sharing
repository.  Python floats are modelled as rationals (ℚ); the ambient
wall-clock read (`datetime.now()`) and the three SQLite data providers
(`get_latest_quota`, `get_claude_info`, `get_recent_weighted_usage`) are
modelled as explicit parameters, so the engine is the pure function the
spec describes.  Instants are rational timestamps (seconds on a common
timeline); ISO parsing of the reset string is abstracted into a three-way
input (missing / unparsable / parsed instant), matching the three branches
of the source.
-/

/-- Interval bounds, in seconds (`MIN_INTERVAL = 900` in the source). -/
def MIN_INTERVAL : ℤ := 900

/-- `MAX_INTERVAL = 7200` in the source. -/
def MAX_INTERVAL : ℤ := 7200

/-- `DEFAULT_INTERVAL = 1800` in the source. -/
def DEFAULT_INTERVAL : ℤ := 1800

/-- Python's two-argument `min` on rationals (kernel-evaluable; equal to
Mathlib's `min`, see `rmin_eq_min`). -/
def rmin (a b : ℚ) : ℚ := if a ≤ b then a else b

/-- Python's two-argument `max` on rationals (equal to Mathlib's `max`,
see `rmax_eq_max`). -/
def rmax (a b : ℚ) : ℚ := if a ≤ b then b else a

/-- The `reset_time_iso: Optional[str]` argument of
`calculate_window_multiplier`, after the two tests the source applies to it:
`rnone` models a falsy value (`if not reset_time_iso`), `rinvalid` a string
on which `datetime.fromisoformat` raises, and `rvalid t` a string that
parses to the instant `t` (seconds on the rational timeline). -/
inductive ResetInput where
  | rnone : ResetInput
  | rinvalid : ResetInput
  | rvalid : ℚ → ResetInput
deriving DecidableEq

/-- Is `needle` an initial segment of `hay`?  (List-of-characters model of
Python string matching.) -/
def leadsWith : List Char → List Char → Bool
  | _, [] => true
  | [], _ :: _ => false
  | a :: as, b :: bs => (a = b) && leadsWith as bs

/-- Does `needle` occur contiguously inside `hay`?  Models Python's
`needle in hay` on strings. -/
def containsSeq : List Char → List Char → Bool
  | [], needle => needle.isEmpty
  | hay@(_ :: rest), needle => leadsWith hay needle || containsSeq rest needle

/-- ASCII lowering of one character, modelling `str.lower` on the window
names that occur in the program (which are ASCII). -/
def lowerChar (c : Char) : Char :=
  if 'A' ≤ c ∧ c ≤ 'Z' then Char.ofNat (c.toNat + 32) else c

/-- Models `'session' in window_name.lower() or '5' in window_name`,
selecting the nominal window duration in seconds: 5 hours for a session
window, 7 days otherwise (lines 177-180 of the source). -/
def window_duration (window_name : String) : ℚ :=
  if containsSeq (window_name.data.map lowerChar) "session".data
      || containsSeq window_name.data "5".data
  then 5 * 3600 else 7 * 86400

/-- The piecewise mapping from pace ratio to (multiplier, reason suffix) of
lines 205-219 of `calculate_window_multiplier`, with the branches in source
order: `> 1.5 → 1.5`, `> 1.1 → 1.2`, `< 0.7 → 0.7`, `< 0.9 → 0.9`,
otherwise `1.0`. -/
def pace_bucket (pace_ratio : ℚ) : ℚ × String :=
  if 3/2 < pace_ratio then (3/2, "slowing significantly")
  else if 11/10 < pace_ratio then (6/5, "slight slowdown")
  else if pace_ratio < 7/10 then (7/10, "can speed up")
  else if pace_ratio < 9/10 then (9/10, "slight speedup")
  else (1, "on track")

/-- `calculate_window_multiplier(percent_used, reset_time_iso,
collaborative_pref, window_name)` with the ambient `datetime.now()` read
passed in as `now`.  Python's `int(time_fraction*100)` truncates toward
zero; `time_fraction` is clamped to `[0,1]`, so it equals the floor. -/
def calculate_window_multiplier (percent_used : ℤ) (reset_time : ResetInput)
    (collaborative_pref : ℤ) (window_name : String) (now : ℚ) : ℚ × String :=
  match reset_time with
  | .rnone => (1, window_name ++ ": No reset time available")
  | .rinvalid => (1, window_name ++ ": Invalid reset time")
  | .rvalid reset_time =>
    if reset_time ≤ now then (1, window_name ++ ": Reset time has passed")
    else
      let window_start := reset_time - window_duration window_name
      let total_duration := reset_time - window_start
      let elapsed := now - window_start
      let time_fraction := rmin 1 (rmax 0 (elapsed / total_duration))
      let autonomous_quota : ℤ := 100 - collaborative_pref
      let autonomous_used_fraction : ℚ :=
        if 0 < autonomous_quota then (percent_used : ℚ) / (autonomous_quota : ℚ)
        else 0
      if time_fraction = 0 then (1, window_name ++ ": Just started")
      else
        let pace_ratio := autonomous_used_fraction / time_fraction
        let b := pace_bucket pace_ratio
        (b.1, window_name ++ ": " ++ toString percent_used ++ "% used, "
          ++ toString ⌊time_fraction * 100⌋ ++ "% elapsed - " ++ b.2)

/-- Models `recent_usage.get(claude_name, 0.0)`: the Python dict is embedded
as an association list with unique keys; absence defaults to `0`. -/
def getUsage (claude_name : String) : List (String × ℚ) → ℚ
  | [] => 0
  | (n, u) :: rest => if n = claude_name then u else getUsage claude_name rest

/-- `calculate_fairness_multiplier(claude_name, recent_usage)` (lines
108-142 of the source).  `min(non_zero_usage)` is realised as a left fold
of `min` over the (non-empty) filtered list. -/
def calculate_fairness_multiplier (claude_name : String)
    (recent_usage : List (String × ℚ)) : ℚ :=
  let my_usage := getUsage claude_name recent_usage
  let values := recent_usage.map Prod.snd
  if values.all (fun u => decide (u = 0)) then 1
  else
    match values.filter (fun u => decide (0 < u)) with
    | [] => 1
    | h :: t =>
      let lowest_usage := t.foldl rmin h
      if my_usage = 0 then 1/2
      else rmax (1/2) (rmin 2 (lowest_usage / my_usage))

/-- Division that reports a zero denominator instead of Lean's total
`x / 0 = 0` convention.  Used by the `_checked` variants below, which replay
the source with every division routed through this function: proving a
`_checked` variant equal to `some` of the plain one shows no division in
the corresponding Python code can raise `ZeroDivisionError` (and, as the
values are rationals, no `NaN`/`Inf` can arise). -/
def safeDiv (a b : ℚ) : Option ℚ := if b = 0 then none else some (a / b)

/-- `calculate_fairness_multiplier` with its one division checked. -/
def calculate_fairness_multiplier_checked (claude_name : String)
    (recent_usage : List (String × ℚ)) : Option ℚ :=
  let my_usage := getUsage claude_name recent_usage
  let values := recent_usage.map Prod.snd
  if values.all (fun u => decide (u = 0)) then some 1
  else
    match values.filter (fun u => decide (0 < u)) with
    | [] => some 1
    | h :: t =>
      let lowest_usage := t.foldl rmin h
      if my_usage = 0 then some (1/2)
      else do
        let r ← safeDiv lowest_usage my_usage
        some (rmax (1/2) (rmin 2 r))

/-- `calculate_window_multiplier` with its three divisions checked. -/
def calculate_window_multiplier_checked (percent_used : ℤ)
    (reset_time : ResetInput) (collaborative_pref : ℤ) (window_name : String)
    (now : ℚ) : Option (ℚ × String) :=
  match reset_time with
  | .rnone => some (1, window_name ++ ": No reset time available")
  | .rinvalid => some (1, window_name ++ ": Invalid reset time")
  | .rvalid reset_time =>
    if reset_time ≤ now then some (1, window_name ++ ": Reset time has passed")
    else do
      let window_start := reset_time - window_duration window_name
      let total_duration := reset_time - window_start
      let elapsed := now - window_start
      let tf_raw ← safeDiv elapsed total_duration
      let time_fraction := rmin 1 (rmax 0 tf_raw)
      let autonomous_quota : ℤ := 100 - collaborative_pref
      let autonomous_used_fraction ←
        if 0 < autonomous_quota then
          safeDiv (percent_used : ℚ) (autonomous_quota : ℚ)
        else some 0
      if time_fraction = 0 then some (1, window_name ++ ": Just started")
      else do
        let pace_ratio ← safeDiv autonomous_used_fraction time_fraction
        let b := pace_bucket pace_ratio
        some (b.1, window_name ++ ": " ++ toString percent_used ++ "% used, "
          ++ toString ⌊time_fraction * 100⌋ ++ "% elapsed - " ++ b.2)

/-- A quota reading whose percent fields are present, matching the data
model of the design (percent used as `int[0,100]`, only the resets
optional).  The `timestamp` column is read but never used by the engine.
The raw `quota_info` row actually has nullable percent columns
(`check-quota.py` inserts `data.get(...)`); that shape is `QuotaRow`
below, with `QuotaRow.ofQuota` the inclusion, and the engine over it is
`calculate_recommended_interval_opt`. -/
structure Quota where
  session_5hour : ℤ
  week_all : ℤ
  week_sonnet : ℤ
  session_5hour_reset : ResetInput
  week_reset : ResetInput
deriving DecidableEq

/-- An identity-registry row, as returned by `get_claude_info` (after its
`or 3` / `or 30` defaulting). -/
structure ClaudeInfo where
  name : String
  model : String
  cost_multiplier : ℚ
  collaborative_pref : ℤ
deriving DecidableEq

/-- The `multipliers` sub-dict of a full recommendation. -/
structure Multipliers where
  fairness : ℚ
  session_5hour : ℚ
  weekly : ℚ
  combined : ℚ
deriving DecidableEq

/-- The dict returned by `calculate_recommended_interval`.  The early
returns carry `multipliers = {}` and omit the trailing keys; that is
modelled with `Option` (`none` on the early paths). -/
structure Recommendation where
  recommended_interval : ℤ
  reasons : List String
  quota_status : String
  multipliers : Option Multipliers
  collaborative_pref : Option ℤ
  current_interval : Option ℤ
  recent_usage : Option (List (String × ℚ))
deriving DecidableEq

/-- Two-decimal rendering of a multiplier, modelling the `f"{x:.2f}"`
fragments of the reason strings (rounding of the last digit is taken
half-up on the rational; no property below depends on these digits). -/
def fmt2 (q : ℚ) : String :=
  let c := ⌊q * 100 + 1/2⌋
  toString (c / 100) ++ "." ++ (if c % 100 < 10 then "0" else "")
    ++ toString (c % 100)

/-- `calculate_recommended_interval(claude_name, current_interval)` with the
three data providers and the clock passed in explicitly.  Python's
`int(...)` on the clamped value truncates toward zero; the value is at
least `MIN_INTERVAL > 0`, so it equals the floor. -/
def calculate_recommended_interval (claude_name : String)
    (current_interval? : Option ℤ) (quota? : Option Quota)
    (claude_info? : Option ClaudeInfo) (recent_usage : List (String × ℚ))
    (now : ℚ) : Recommendation :=
  let current_interval := current_interval?.getD DEFAULT_INTERVAL
  match quota? with
  | none =>
    { recommended_interval := current_interval
      reasons := ["No quota data available"]
      quota_status := "unknown"
      multipliers := none
      collaborative_pref := none
      current_interval := none
      recent_usage := none }
  | some quota =>
    match claude_info? with
    | none =>
      { recommended_interval := current_interval
        reasons := ["Claude " ++ claude_name ++ " not found in database"]
        quota_status := "unknown"
        multipliers := none
        collaborative_pref := none
        current_interval := none
        recent_usage := none }
    | some claude_info =>
      let collaborative_pref := claude_info.collaborative_pref
      let fairness_mult := calculate_fairness_multiplier claude_name recent_usage
      let sm := calculate_window_multiplier quota.session_5hour
        quota.session_5hour_reset collaborative_pref "5hr session" now
      let wm := calculate_window_multiplier quota.week_all
        quota.week_reset collaborative_pref "weekly" now
      let new_interval : ℚ :=
        (current_interval : ℚ) * fairness_mult * sm.1 * wm.1
      let recommended : ℤ :=
        ⌊rmax (MIN_INTERVAL : ℚ) (rmin (MAX_INTERVAL : ℚ) new_interval)⌋
      let reasons := [
        "Fairness: " ++ fmt2 fairness_mult ++ "x (24hr weighted usage)",
        sm.2 ++ " (" ++ fmt2 sm.1 ++ "x)",
        wm.2 ++ " (" ++ fmt2 wm.1 ++ "x)",
        "Combined: " ++ toString current_interval ++ "s → "
          ++ toString recommended ++ "s"]
      let quota_status :=
        if 80 < quota.week_all then "critical"
        else if 60 < quota.week_all then "high"
        else if 40 < quota.week_all then "medium"
        else "good"
      { recommended_interval := recommended
        reasons := reasons
        quota_status := quota_status
        multipliers := some ⟨fairness_mult, sm.1, wm.1,
          fairness_mult * sm.1 * wm.1⟩
        collaborative_pref := some collaborative_pref
        current_interval := some current_interval
        recent_usage := some recent_usage }

/-- `calculate_recommended_interval` with every division (all of which live
in its two helpers) checked. -/
def calculate_recommended_interval_checked (claude_name : String)
    (current_interval? : Option ℤ) (quota? : Option Quota)
    (claude_info? : Option ClaudeInfo) (recent_usage : List (String × ℚ))
    (now : ℚ) : Option Recommendation :=
  let current_interval := current_interval?.getD DEFAULT_INTERVAL
  match quota? with
  | none =>
    some { recommended_interval := current_interval
           reasons := ["No quota data available"]
           quota_status := "unknown"
           multipliers := none
           collaborative_pref := none
           current_interval := none
           recent_usage := none }
  | some quota =>
    match claude_info? with
    | none =>
      some { recommended_interval := current_interval
             reasons := ["Claude " ++ claude_name ++ " not found in database"]
             quota_status := "unknown"
             multipliers := none
             collaborative_pref := none
             current_interval := none
             recent_usage := none }
    | some claude_info => do
      let collaborative_pref := claude_info.collaborative_pref
      let fairness_mult ←
        calculate_fairness_multiplier_checked claude_name recent_usage
      let sm ← calculate_window_multiplier_checked quota.session_5hour
        quota.session_5hour_reset collaborative_pref "5hr session" now
      let wm ← calculate_window_multiplier_checked quota.week_all
        quota.week_reset collaborative_pref "weekly" now
      let new_interval : ℚ :=
        (current_interval : ℚ) * fairness_mult * sm.1 * wm.1
      let recommended : ℤ :=
        ⌊rmax (MIN_INTERVAL : ℚ) (rmin (MAX_INTERVAL : ℚ) new_interval)⌋
      let reasons := [
        "Fairness: " ++ fmt2 fairness_mult ++ "x (24hr weighted usage)",
        sm.2 ++ " (" ++ fmt2 sm.1 ++ "x)",
        wm.2 ++ " (" ++ fmt2 wm.1 ++ "x)",
        "Combined: " ++ toString current_interval ++ "s → "
          ++ toString recommended ++ "s"]
      let quota_status :=
        if 80 < quota.week_all then "critical"
        else if 60 < quota.week_all then "high"
        else if 40 < quota.week_all then "medium"
        else "good"
      some { recommended_interval := recommended
             reasons := reasons
             quota_status := quota_status
             multipliers := some ⟨fairness_mult, sm.1, wm.1,
               fairness_mult * sm.1 * wm.1⟩
             collaborative_pref := some collaborative_pref
             current_interval := some current_interval
             recent_usage := some recent_usage }

/-- The raw `quota_info` row as returned by `get_latest_quota`: the percent
columns are nullable (`check-quota.py` inserts `data.get(...)`, which is
`None` whenever the scrape finds a window's reset but not its percent, or
vice versa), so they are `Option ℤ` here. -/
structure QuotaRow where
  session_5hour : Option ℤ
  week_all : Option ℤ
  week_sonnet : Option ℤ
  session_5hour_reset : ResetInput
  week_reset : ResetInput
deriving DecidableEq

/-- Inclusion of present-percent readings into raw rows. -/
def QuotaRow.ofQuota (q : Quota) : QuotaRow :=
  ⟨some q.session_5hour, some q.week_all, some q.week_sonnet,
   q.session_5hour_reset, q.week_reset⟩

/-- Python `str()` of a nullable int, as produced by the f-string reason
text when the percent field is absent (`"None"`). -/
def optIntStr : Option ℤ → String
  | none => "None"
  | some v => toString v

/-- `calculate_window_multiplier` over a nullable `percent_used`, as the
engine actually calls it (it passes the raw row's percent straight
through).  `Except.error` models a Python `TypeError` escaping: the
division `percent_used / autonomous_quota` at line 193 executes whenever
`autonomous_quota > 0`, before the `time_fraction == 0` return, and raises
if `percent_used` is `None`.  Formatting `None` in the reason f-string
does not raise. -/
def calculate_window_multiplier_opt (percent_used : Option ℤ)
    (reset_time : ResetInput) (collaborative_pref : ℤ) (window_name : String)
    (now : ℚ) : Except String (ℚ × String) :=
  match reset_time with
  | .rnone => .ok (1, window_name ++ ": No reset time available")
  | .rinvalid => .ok (1, window_name ++ ": Invalid reset time")
  | .rvalid reset_time =>
    if reset_time ≤ now then
      .ok (1, window_name ++ ": Reset time has passed")
    else
      let window_start := reset_time - window_duration window_name
      let total_duration := reset_time - window_start
      let elapsed := now - window_start
      let time_fraction := rmin 1 (rmax 0 (elapsed / total_duration))
      let autonomous_quota : ℤ := 100 - collaborative_pref
      let aufE : Except String ℚ :=
        if 0 < autonomous_quota then
          match percent_used with
          | none =>
            .error "TypeError: unsupported operand type for /: NoneType and int"
          | some p => .ok ((p : ℚ) / (autonomous_quota : ℚ))
        else .ok 0
      match aufE with
      | .error e => .error e
      | .ok autonomous_used_fraction =>
        if time_fraction = 0 then .ok (1, window_name ++ ": Just started")
        else
          let pace_ratio := autonomous_used_fraction / time_fraction
          let b := pace_bucket pace_ratio
          .ok (b.1, window_name ++ ": " ++ optIntStr percent_used
            ++ "% used, " ++ toString ⌊time_fraction * 100⌋
            ++ "% elapsed - " ++ b.2)

/-- `calculate_recommended_interval` over the raw nullable row.
`Except.error` models a Python `TypeError` escaping: either from a window
call (line 193, via `calculate_window_multiplier_opt`), or — in source
order, after the interval and reasons are computed — from the
`quota['week_all'] > 80` status comparison at line 296, which raises when
`week_all` is `None`. -/
def calculate_recommended_interval_opt (claude_name : String)
    (current_interval? : Option ℤ) (quota? : Option QuotaRow)
    (claude_info? : Option ClaudeInfo) (recent_usage : List (String × ℚ))
    (now : ℚ) : Except String Recommendation :=
  let current_interval := current_interval?.getD DEFAULT_INTERVAL
  match quota? with
  | none =>
    .ok { recommended_interval := current_interval
          reasons := ["No quota data available"]
          quota_status := "unknown"
          multipliers := none
          collaborative_pref := none
          current_interval := none
          recent_usage := none }
  | some quota =>
    match claude_info? with
    | none =>
      .ok { recommended_interval := current_interval
            reasons := ["Claude " ++ claude_name ++ " not found in database"]
            quota_status := "unknown"
            multipliers := none
            collaborative_pref := none
            current_interval := none
            recent_usage := none }
    | some claude_info =>
      let collaborative_pref := claude_info.collaborative_pref
      let fairness_mult := calculate_fairness_multiplier claude_name recent_usage
      match calculate_window_multiplier_opt quota.session_5hour
        quota.session_5hour_reset collaborative_pref "5hr session" now with
      | .error e => .error e
      | .ok sm =>
        match calculate_window_multiplier_opt quota.week_all
          quota.week_reset collaborative_pref "weekly" now with
        | .error e => .error e
        | .ok wm =>
          let new_interval : ℚ :=
            (current_interval : ℚ) * fairness_mult * sm.1 * wm.1
          let recommended : ℤ :=
            ⌊rmax (MIN_INTERVAL : ℚ) (rmin (MAX_INTERVAL : ℚ) new_interval)⌋
          let reasons := [
            "Fairness: " ++ fmt2 fairness_mult ++ "x (24hr weighted usage)",
            sm.2 ++ " (" ++ fmt2 sm.1 ++ "x)",
            wm.2 ++ " (" ++ fmt2 wm.1 ++ "x)",
            "Combined: " ++ toString current_interval ++ "s → "
              ++ toString recommended ++ "s"]
          match quota.week_all with
          | none =>
            .error "TypeError: unsupported operand type for >: NoneType and int"
          | some week_all =>
            let quota_status :=
              if 80 < week_all then "critical"
              else if 60 < week_all then "high"
              else if 40 < week_all then "medium"
              else "good"
            .ok { recommended_interval := recommended
                  reasons := reasons
                  quota_status := quota_status
                  multipliers := some ⟨fairness_mult, sm.1, wm.1,
                    fairness_mult * sm.1 * wm.1⟩
                  collaborative_pref := some collaborative_pref
                  current_interval := some current_interval
                  recent_usage := some recent_usage }

/-! ## Basic lemmas about the embedded operations -/

theorem rmin_eq_min (a b : ℚ) : rmin a b = min a b := by
  rw [rmin, min_def]

theorem rmax_eq_max (a b : ℚ) : rmax a b = max a b := by
  rw [rmax, max_def]

theorem window_duration_pos (window_name : String) :
    0 < window_duration window_name := by
  unfold window_duration
  split <;> norm_num

theorem window_duration_session : window_duration "5hr session" = 18000 := by
  unfold window_duration
  rw [if_pos (by decide)]
  norm_num

theorem window_duration_weekly : window_duration "weekly" = 604800 := by
  unfold window_duration
  rw [if_neg (by decide)]
  norm_num

theorem safeDiv_of_ne_zero (a : ℚ) {b : ℚ} (h : b ≠ 0) :
    safeDiv a b = some (a / b) := by
  simp [safeDiv, h]

theorem foldl_rmin_le_init : ∀ (t : List ℚ) (a : ℚ), t.foldl rmin a ≤ a := by
  intro t
  induction t with
  | nil => intro a; exact le_refl a
  | cons b t ih =>
    intro a
    calc t.foldl rmin (rmin a b) ≤ rmin a b := ih (rmin a b)
    _ ≤ a := by rw [rmin_eq_min]; exact min_le_left a b

theorem foldl_rmin_le_of_mem :
    ∀ (t : List ℚ) (a x : ℚ), x ∈ a :: t → t.foldl rmin a ≤ x := by
  intro t
  induction t with
  | nil =>
    intro a x hx
    rcases List.mem_singleton.mp hx with rfl
    exact le_refl x
  | cons b t ih =>
    intro a x hx
    rcases List.mem_cons.mp hx with rfl | hx2
    · exact foldl_rmin_le_init (b :: t) x
    rcases List.mem_cons.mp hx2 with rfl | hx3
    · calc t.foldl rmin (rmin a x) ≤ rmin a x := foldl_rmin_le_init t _
      _ ≤ x := by rw [rmin_eq_min]; exact min_le_right a x
    · exact ih (rmin a b) x (List.mem_cons_of_mem _ hx3)

theorem foldl_rmin_mem : ∀ (t : List ℚ) (a : ℚ), t.foldl rmin a ∈ a :: t := by
  intro t
  induction t with
  | nil => intro a; exact List.mem_singleton.mpr rfl
  | cons b t ih =>
    intro a
    show t.foldl rmin (rmin a b) ∈ a :: b :: t
    rw [rmin_eq_min]
    rcases min_choice a b with h3 | h3 <;> rw [h3]
    · rcases List.mem_cons.mp (ih a) with h2 | h2
      · rw [h2]; exact List.mem_cons_self a (b :: t)
      · exact List.mem_cons_of_mem a (List.mem_cons_of_mem b h2)
    · rcases List.mem_cons.mp (ih b) with h2 | h2
      · rw [h2]; exact List.mem_cons_of_mem a (List.mem_cons_self b t)
      · exact List.mem_cons_of_mem a (List.mem_cons_of_mem b h2)

theorem getUsage_nonneg (claude_name : String) :
    ∀ (usage : List (String × ℚ)), (∀ p ∈ usage, 0 ≤ p.2) →
      0 ≤ getUsage claude_name usage := by
  intro usage
  induction usage with
  | nil => intro _; exact le_refl 0
  | cons p rest ih =>
    intro h
    obtain ⟨n, u⟩ := p
    by_cases hn : n = claude_name
    · simpa [getUsage, hn] using h (n, u) (List.mem_cons_self _ _)
    · simpa [getUsage, hn] using ih fun q hq => h q (List.mem_cons_of_mem _ hq)

theorem getUsage_mem_of_ne_zero (claude_name : String) :
    ∀ (usage : List (String × ℚ)), getUsage claude_name usage ≠ 0 →
      getUsage claude_name usage ∈ usage.map Prod.snd := by
  intro usage
  induction usage with
  | nil => intro h; exact absurd rfl h
  | cons p rest ih =>
    intro h
    obtain ⟨n, u⟩ := p
    by_cases hn : n = claude_name
    · simp [getUsage, hn]
    · have h2 : getUsage claude_name ((n, u) :: rest)
          = getUsage claude_name rest := by simp [getUsage, hn]
      rw [h2] at h ⊢
      exact List.mem_cons_of_mem _ (ih h)

theorem fairness_mem_Icc (claude_name : String) (usage : List (String × ℚ))
    (h : ∀ p ∈ usage, 0 ≤ p.2) :
    calculate_fairness_multiplier claude_name usage ∈ Set.Icc (1/2 : ℚ) 1 := by
  simp only [calculate_fairness_multiplier]
  split
  · norm_num
  · split
    · norm_num
    · split
      · norm_num
      · rename_i hfil hmy
        have hmy0 : 0 ≤ getUsage claude_name usage :=
          getUsage_nonneg claude_name usage h
        have hmypos : 0 < getUsage claude_name usage :=
          lt_of_le_of_ne hmy0 (Ne.symm hmy)
        have hmem : getUsage claude_name usage ∈ usage.map Prod.snd :=
          getUsage_mem_of_ne_zero claude_name usage hmy
        have hmemf : getUsage claude_name usage ∈
            (usage.map Prod.snd).filter (fun u => decide (0 < u)) :=
          List.mem_filter.mpr ⟨hmem, by simpa using hmypos⟩
        rw [hfil] at hmemf
        rename_i hlist t
        have hle := foldl_rmin_le_of_mem _ _ _ hmemf
        have hr1 : _ / getUsage claude_name usage ≤ (1 : ℚ) :=
          (div_le_one hmypos).mpr hle
        rw [Set.mem_Icc, rmax_eq_max, rmin_eq_min]
        constructor
        · exact le_max_left _ _
        · exact max_le (by norm_num) (le_trans (min_le_right _ _) hr1)

theorem pace_bucket_mono {r1 r2 : ℚ} (h : r1 ≤ r2) :
    (pace_bucket r1).1 ≤ (pace_bucket r2).1 := by
  unfold pace_bucket
  split_ifs <;> linarith

theorem rmin_one_rmax_nonneg (x : ℚ) : 0 ≤ rmin 1 (rmax 0 x) := by
  rw [rmin_eq_min, rmax_eq_max]
  exact le_min (by norm_num) (le_max_left 0 x)

theorem calculate_fairness_multiplier_checked_eq (claude_name : String)
    (usage : List (String × ℚ)) :
    calculate_fairness_multiplier_checked claude_name usage
      = some (calculate_fairness_multiplier claude_name usage) := by
  simp only [calculate_fairness_multiplier_checked, calculate_fairness_multiplier]
  split
  · rfl
  · split
    · rfl
    · split
      · rfl
      · rename_i hmy
        rw [safeDiv_of_ne_zero _ hmy]
        rfl

theorem calculate_window_multiplier_checked_eq (p : ℤ) (reset : ResetInput)
    (pref : ℤ) (name : String) (now : ℚ) :
    calculate_window_multiplier_checked p reset pref name now
      = some (calculate_window_multiplier p reset pref name now) := by
  cases reset with
  | rnone => rfl
  | rinvalid => rfl
  | rvalid t =>
    by_cases h1 : t ≤ now
    · simp [calculate_window_multiplier_checked, calculate_window_multiplier, h1]
    · have hdw : window_duration name ≠ 0 :=
        ne_of_gt (window_duration_pos name)
      by_cases h2 : rmin 1 (rmax 0 ((now - (t - window_duration name))
          / window_duration name)) = 0 <;>
        by_cases h3 : (0 : ℤ) < 100 - pref <;>
        first
        | (have hq : (100 : ℚ) - (pref : ℚ) ≠ 0 := by
             have h4 : ((100 - pref : ℤ) : ℚ) ≠ 0 := by
               exact_mod_cast ne_of_gt h3
             push_cast at h4
             exact h4
           simp [calculate_window_multiplier_checked,
             calculate_window_multiplier, safeDiv, h1, hdw, h2, h3, hq])
        | simp [calculate_window_multiplier_checked,
            calculate_window_multiplier, safeDiv, h1, hdw, h2, h3]

theorem calculate_recommended_interval_checked_eq (claude_name : String)
    (current_interval? : Option ℤ) (quota? : Option Quota)
    (claude_info? : Option ClaudeInfo) (usage : List (String × ℚ)) (now : ℚ) :
    calculate_recommended_interval_checked claude_name current_interval?
        quota? claude_info? usage now
      = some (calculate_recommended_interval claude_name current_interval?
        quota? claude_info? usage now) := by
  cases quota? with
  | none => rfl
  | some q =>
    cases claude_info? with
    | none => rfl
    | some i =>
      simp only [calculate_recommended_interval_checked,
        calculate_recommended_interval,
        calculate_fairness_multiplier_checked_eq,
        calculate_window_multiplier_checked_eq,
        Option.bind_eq_bind, Option.bind]

theorem calculate_window_multiplier_opt_some (p : ℤ) (reset : ResetInput)
    (pref : ℤ) (name : String) (now : ℚ) :
    calculate_window_multiplier_opt (some p) reset pref name now
      = .ok (calculate_window_multiplier p reset pref name now) := by
  cases reset with
  | rnone => rfl
  | rinvalid => rfl
  | rvalid t =>
    by_cases h1 : t ≤ now
    · simp [calculate_window_multiplier_opt, calculate_window_multiplier, h1]
    · by_cases h2 : rmin 1 (rmax 0 ((now - (t - window_duration name))
          / window_duration name)) = 0 <;>
        by_cases h3 : (0 : ℤ) < 100 - pref <;>
        simp [calculate_window_multiplier_opt, calculate_window_multiplier,
          optIntStr, h1, h2, h3]

theorem calculate_recommended_interval_opt_of_present (name : String)
    (curr : Option ℤ) (quota? : Option Quota) (info? : Option ClaudeInfo)
    (usage : List (String × ℚ)) (now : ℚ) :
    calculate_recommended_interval_opt name curr
        (quota?.map QuotaRow.ofQuota) info? usage now
      = .ok (calculate_recommended_interval name curr quota? info?
          usage now) := by
  cases quota? with
  | none => rfl
  | some q =>
    cases info? with
    | none => rfl
    | some i =>
      simp only [Option.map_some', calculate_recommended_interval_opt,
        calculate_recommended_interval, QuotaRow.ofQuota,
        calculate_window_multiplier_opt_some]


theorem floor_clamp_bounds (v : ℚ) :
    MIN_INTERVAL ≤ ⌊rmax (MIN_INTERVAL : ℚ) (rmin (MAX_INTERVAL : ℚ) v)⌋ ∧
      ⌊rmax (MIN_INTERVAL : ℚ) (rmin (MAX_INTERVAL : ℚ) v)⌋ ≤ MAX_INTERVAL := by
  rw [rmax_eq_max, rmin_eq_min]
  constructor
  · exact Int.le_floor.mpr (le_max_left _ _)
  · have h1 : max ((MIN_INTERVAL : ℤ) : ℚ) (min ((MAX_INTERVAL : ℤ) : ℚ) v)
        ≤ ((MAX_INTERVAL : ℤ) : ℚ) := by
      apply max_le
      · norm_num [MIN_INTERVAL, MAX_INTERVAL]
      · exact min_le_left _ _
    calc ⌊max ((MIN_INTERVAL : ℤ) : ℚ) (min ((MAX_INTERVAL : ℤ) : ℚ) v)⌋
        ≤ ⌊((MAX_INTERVAL : ℤ) : ℚ)⌋ := Int.floor_mono h1
    _ = MAX_INTERVAL := Int.floor_intCast _

/-! ## The claims -/

/-- C10: for every usage mapping of non-negative numbers and every agent
name, the fairness multiplier lies in the closed interval `[0.5, 1.0]` (so
by itself it can only shorten or preserve the interval, never lengthen
it). -/
theorem fairness_range (name : String) (usage : List (String × ℚ))
    (h : ∀ p ∈ usage, 0 ≤ p.2) :
    1/2 ≤ calculate_fairness_multiplier name usage ∧
      calculate_fairness_multiplier name usage ≤ 1 :=
  Set.mem_Icc.mp (fairness_mem_Icc name usage h)

/-- Witness for `fairness_range` at a concrete usage mapping. -/
theorem fairness_range_witness :
    1/2 ≤ calculate_fairness_multiplier "A" [("A", 2), ("B", 3)] ∧
      calculate_fairness_multiplier "A" [("A", 2), ("B", 3)] ≤ 1 :=
  fairness_range "A" [("A", 2), ("B", 3)] (by norm_num)

/-- C6: if every agent's usage is zero the fairness multiplier is exactly
`1.0`, and if the queried agent's own usage is zero while some agent's
usage is positive it is exactly `0.5`. -/
theorem fairness_zero_usage_policy :
    (∀ (name : String) (usage : List (String × ℚ)),
      (∀ p ∈ usage, p.2 = 0) → calculate_fairness_multiplier name usage = 1) ∧
    (∀ (name : String) (usage : List (String × ℚ)),
      getUsage name usage = 0 → (∃ p ∈ usage, 0 < p.2) →
        calculate_fairness_multiplier name usage = 1/2) := by
  constructor
  · intro name usage h
    have hall : (usage.map Prod.snd).all (fun u => decide (u = 0)) = true := by
      simp only [List.all_eq_true, List.mem_map, decide_eq_true_eq]
      rintro u ⟨p, hp, rfl⟩
      exact h p hp
    simp only [calculate_fairness_multiplier, hall, if_true]
  · intro name usage hmy hex
    obtain ⟨p, hp, hppos⟩ := hex
    have hall : ¬ ((usage.map Prod.snd).all (fun u => decide (u = 0)) = true) := by
      simp only [List.all_eq_true, List.mem_map, decide_eq_true_eq]
      push_neg
      exact ⟨p.2, ⟨p, hp, rfl⟩, ne_of_gt hppos⟩
    have hmem : p.2 ∈ (usage.map Prod.snd).filter (fun u => decide (0 < u)) :=
      List.mem_filter.mpr ⟨List.mem_map_of_mem _ hp, by simpa using hppos⟩
    rcases hfil : (usage.map Prod.snd).filter (fun u => decide (0 < u))
      with _ | ⟨h0, t0⟩
    · rw [hfil] at hmem
      exact absurd hmem (List.not_mem_nil _)
    · simp only [calculate_fairness_multiplier, if_neg hall, hfil, hmy,
        if_pos]

/-- Witness for `fairness_zero_usage_policy` at concrete usage mappings. -/
theorem fairness_zero_usage_policy_witness :
    calculate_fairness_multiplier "C" [] = 1 ∧
      calculate_fairness_multiplier "A" [("A", 0), ("B", 3)] = 1/2 :=
  ⟨fairness_zero_usage_policy.1 "C" [] (by simp),
   fairness_zero_usage_policy.2 "A" [("A", 0), ("B", 3)]
     (by norm_num [getUsage]) ⟨("B", 3), by norm_num, by norm_num⟩⟩

/-- C2: evaluating the fairness multiplier at the failing input of the
claim: agent B with usage 10 against a floor of 1 receives `0.5` (the
clamped value of `1/10`), not a slowdown value greater than `1.0` as the
claim and the source's own docstring state. -/
theorem fairness_heavy_user_eval :
    calculate_fairness_multiplier "B" [("A", 1), ("B", 10)] = 1/2 ∧
      ¬ (1 < calculate_fairness_multiplier "B" [("A", 1), ("B", 10)]) := by
  have hg : getUsage "B" [("A", 1), ("B", 10)] = 10 := by
    norm_num [getUsage]
    decide
  have he : calculate_fairness_multiplier "B" [("A", 1), ("B", 10)] = 1/2 := by
    norm_num [calculate_fairness_multiplier, hg, rmin, rmax]
  refine ⟨he, ?_⟩
  rw [he]
  norm_num

/-- C3: with no quota snapshot, or an unknown agent, the engine returns the
caller-supplied interval unchanged (default `DEFAULT_INTERVAL = 1800` when
none was supplied), an explanatory reason, `quota_status = "unknown"`, and
no multipliers. -/
theorem missing_data_neutral_return :
    (∀ (name : String) (curr : Option ℤ) (info? : Option ClaudeInfo)
        (usage : List (String × ℚ)) (now : ℚ),
      calculate_recommended_interval name curr none info? usage now
        = { recommended_interval := curr.getD DEFAULT_INTERVAL
            reasons := ["No quota data available"]
            quota_status := "unknown"
            multipliers := none
            collaborative_pref := none
            current_interval := none
            recent_usage := none }) ∧
    (∀ (name : String) (curr : Option ℤ) (q : Quota)
        (usage : List (String × ℚ)) (now : ℚ),
      calculate_recommended_interval name curr (some q) none usage now
        = { recommended_interval := curr.getD DEFAULT_INTERVAL
            reasons := ["Claude " ++ name ++ " not found in database"]
            quota_status := "unknown"
            multipliers := none
            collaborative_pref := none
            current_interval := none
            recent_usage := none }) :=
  ⟨fun _ _ _ _ _ => rfl, fun _ _ _ _ _ => rfl⟩

/-- C9 counterexample: the engine and its window helper can raise.  With a
raw row whose `week_all` percent is absent (and both resets missing, so
neither window call touches a percent), the engine reaches the
`quota['week_all'] > 80` comparison of line 296 and raises `TypeError`;
and with an absent percent, a valid future reset and autonomous quota
`70 > 0`, the window helper raises `TypeError` at the
`percent_used / autonomous_quota` division of line 193 — so "never raise
an exception ... including quota percent fields that are absent" is false
of the code. -/
theorem engine_raises_on_absent_percent :
    calculate_recommended_interval_opt "Sparkle-Orange" (some 1800)
        (some ⟨some 10, none, none, .rnone, .rnone⟩)
        (some ⟨"Sparkle-Orange", "sonnet", 3, 30⟩) [] 0
      = .error "TypeError: unsupported operand type for >: NoneType and int" ∧
    calculate_window_multiplier_opt none (.rvalid 17400) 30 "5hr session" 0
      = .error "TypeError: unsupported operand type for /: NoneType and int" := by
  constructor
  · rfl
  · norm_num [calculate_window_multiplier_opt]

/-- C9 amended: for every well-typed input whose quota percent fields are
present — including all-zero usage, nonpositive autonomous quota and zero
time fraction — the engine and its helpers raise no exception and, the
values being rationals, produce no `NaN`/`Inf`: the nullable-row engine
returns `.ok` of the total engine's value on every present-percent row,
and the `_checked` variants, which replay the source with every division
guarded, always succeed and agree with the unchecked functions (the one
division without a guard branch, `elapsed / total_duration` at line 187,
has the constant positive nominal window duration as denominator; the
divisions that could hit zero are the explicitly guarded ones).  With an
absent percent field the engine can instead raise `TypeError`, as the
counterexample shows. -/
theorem no_raise_when_percents_present :
    (∀ (name : String) (curr : Option ℤ) (quota? : Option Quota)
        (info? : Option ClaudeInfo) (usage : List (String × ℚ)) (now : ℚ),
      calculate_recommended_interval_opt name curr
          (quota?.map QuotaRow.ofQuota) info? usage now
        = .ok (calculate_recommended_interval name curr quota? info?
            usage now)) ∧
    (∀ (p : ℤ) (r : ResetInput) (c : ℤ) (n : String) (now : ℚ),
      calculate_window_multiplier_opt (some p) r c n now
        = .ok (calculate_window_multiplier p r c n now)) ∧
    (∀ (name : String) (usage : List (String × ℚ)),
      calculate_fairness_multiplier_checked name usage
        = some (calculate_fairness_multiplier name usage)) ∧
    (∀ (p : ℤ) (r : ResetInput) (c : ℤ) (n : String) (now : ℚ),
      calculate_window_multiplier_checked p r c n now
        = some (calculate_window_multiplier p r c n now)) ∧
    (∀ (name : String) (curr : Option ℤ) (quota? : Option Quota)
        (info? : Option ClaudeInfo) (usage : List (String × ℚ)) (now : ℚ),
      calculate_recommended_interval_checked name curr quota? info? usage now
        = some (calculate_recommended_interval name curr quota? info?
            usage now)) :=
  ⟨calculate_recommended_interval_opt_of_present,
   calculate_window_multiplier_opt_some,
   calculate_fairness_multiplier_checked_eq,
   calculate_window_multiplier_checked_eq,
   calculate_recommended_interval_checked_eq⟩

/-- C1 counterexample: with no quota snapshot and a caller-supplied current
interval of `0`, the returned interval is `0`, outside
`[MIN_INTERVAL, MAX_INTERVAL]` — the claimed invariant fails on the
early-return paths. -/
theorem interval_bound_violated_without_quota :
    ¬ (MIN_INTERVAL ≤ (calculate_recommended_interval "Sparkle-Orange"
          (some 0) none none [] 0).recommended_interval ∧
       (calculate_recommended_interval "Sparkle-Orange" (some 0) none none
          [] 0).recommended_interval ≤ MAX_INTERVAL) := by
  intro h
  have h0 : (calculate_recommended_interval "Sparkle-Orange" (some 0) none
      none [] 0).recommended_interval = 0 := rfl
  rw [h0] at h
  exact absurd h.1 (by norm_num [MIN_INTERVAL])

/-- C1 amended: whenever a quota snapshot exists and the agent is known,
the recommended interval is clamped to `[MIN_INTERVAL, MAX_INTERVAL]` for
every input (current interval zero, missing or arbitrarily large
included); on the missing-snapshot and unknown-agent paths the
caller-supplied interval is returned unchanged, so it lies in the bounds
only if the caller's value did. -/
theorem interval_clamped_with_data :
    (∀ (name : String) (curr : Option ℤ) (q : Quota) (i : ClaudeInfo)
        (usage : List (String × ℚ)) (now : ℚ),
      MIN_INTERVAL ≤ (calculate_recommended_interval name curr (some q)
          (some i) usage now).recommended_interval ∧
        (calculate_recommended_interval name curr (some q) (some i) usage
          now).recommended_interval ≤ MAX_INTERVAL) ∧
    (∀ (name : String) (c : ℤ) (quota? : Option Quota)
        (info? : Option ClaudeInfo), (quota? = none ∨ info? = none) →
      ∀ (usage : List (String × ℚ)) (now : ℚ),
        (calculate_recommended_interval name (some c) quota? info? usage
          now).recommended_interval = c) := by
  constructor
  · intro name curr q i usage now
    exact floor_clamp_bounds _
  · rintro name c quota? info? (rfl | rfl) usage now
    · rfl
    · cases quota? with
      | none => rfl
      | some q => rfl

/-- Witness for `interval_clamped_with_data`: the second component applied
to a concrete unknown-agent input. -/
theorem interval_clamped_with_data_witness :
    (calculate_recommended_interval "A" (some 4000) none none []
      0).recommended_interval = 4000 :=
  interval_clamped_with_data.2 "A" 4000 none none (Or.inl rfl) [] 0

/-- C4 counterexample: in the session scenario (10% used,
`collaborative_pref = 30`, reset 4h50m away, so time fraction `1/30`),
the session multiplier is not `0.7`: the pace ratio is
`(10/70)/(1/30) = 30/7 > 1.5`, so the code slows down instead. -/
theorem session_scenario_counterexample :
    ¬ ((calculate_window_multiplier 10 (.rvalid 17400) 30 "5hr session"
        0).1 = 7/10) := by
  norm_num [calculate_window_multiplier, window_duration_session, rmin,
    rmax, pace_bucket]

/-- C4 amended: in that scenario the session multiplier is `1.5` (the
"slowing significantly" bucket, the scenario's pace ratio being
`30/7 ≈ 4.29 > 1.5`), not `0.7` and not `1.0`. -/
theorem session_scenario_slows :
    (calculate_window_multiplier 10 (.rvalid 17400) 30 "5hr session" 0).1
        = 3/2 ∧
      pace_bucket ((10/70 : ℚ) / (1/30)) = (3/2, "slowing significantly") := by
  constructor
  · norm_num [calculate_window_multiplier, window_duration_session, rmin,
      rmax, pace_bucket]
  · norm_num [pace_bucket]

/-- C5: the piecewise pace-ratio mapping: `> 1.5 → 1.5`,
`(1.1, 1.5] → 1.2`, `[0.9, 1.1] → 1.0`, `[0.7, 0.9) → 0.9`,
`< 0.7 → 0.7`; a ratio of exactly `1.5` maps to `1.2`, not `1.5`; and the
weekly scenario (99% used, `collaborative_pref = 30`, time fraction
`0.97`, pace ratio `≈ 1.46`) yields exactly `1.2`. -/
theorem pace_bucket_mapping :
    (∀ r : ℚ, 3/2 < r → (pace_bucket r).1 = 3/2) ∧
    (∀ r : ℚ, 11/10 < r → r ≤ 3/2 → (pace_bucket r).1 = 6/5) ∧
    (∀ r : ℚ, 9/10 ≤ r → r ≤ 11/10 → (pace_bucket r).1 = 1) ∧
    (∀ r : ℚ, 7/10 ≤ r → r < 9/10 → (pace_bucket r).1 = 9/10) ∧
    (∀ r : ℚ, r < 7/10 → (pace_bucket r).1 = 7/10) ∧
    (pace_bucket (3/2)).1 = 6/5 ∧
    (calculate_window_multiplier 99 (.rvalid 18000) 30 "weekly" 0).1
      = 6/5 := by
  refine ⟨?_, ?_, ?_, ?_, ?_, ?_, ?_⟩
  · intro r h
    unfold pace_bucket
    rw [if_pos h]
  · intro r h1 h2
    unfold pace_bucket
    rw [if_neg (by linarith), if_pos h1]
  · intro r h1 h2
    unfold pace_bucket
    rw [if_neg (by linarith), if_neg (by linarith), if_neg (by linarith),
      if_neg (by linarith)]
  · intro r h1 h2
    unfold pace_bucket
    rw [if_neg (by linarith), if_neg (by linarith), if_neg (by linarith),
      if_pos h2]
  · intro r h
    unfold pace_bucket
    rw [if_neg (by linarith), if_neg (by linarith), if_pos h]
  · norm_num [pace_bucket]
  · norm_num [calculate_window_multiplier, window_duration_weekly, rmin,
      rmax, pace_bucket]

/-- Witness for `pace_bucket_mapping` at concrete ratios in each guarded
bucket. -/
theorem pace_bucket_mapping_witness :
    (pace_bucket 2).1 = 3/2 ∧ (pace_bucket (13/10)).1 = 6/5 ∧
      (pace_bucket 1).1 = 1 ∧ (pace_bucket (4/5)).1 = 9/10 ∧
      (pace_bucket (1/2)).1 = 7/10 :=
  ⟨pace_bucket_mapping.1 2 (by norm_num),
   pace_bucket_mapping.2.1 (13/10) (by norm_num) (by norm_num),
   pace_bucket_mapping.2.2.1 1 (by norm_num) (by norm_num),
   pace_bucket_mapping.2.2.2.1 (4/5) (by norm_num) (by norm_num),
   pace_bucket_mapping.2.2.2.2.1 (1/2) (by norm_num)⟩

/-- C7: holding the reset input, the clock reading, the collaborative
preference and the window name fixed, the window multiplier is monotone
nondecreasing in `percent_used`. -/
theorem window_multiplier_monotone (p1 p2 : ℤ) (reset : ResetInput)
    (pref : ℤ) (name : String) (now : ℚ) (h : p1 ≤ p2) :
    (calculate_window_multiplier p1 reset pref name now).1
      ≤ (calculate_window_multiplier p2 reset pref name now).1 := by
  cases reset with
  | rnone => exact le_refl 1
  | rinvalid => exact le_refl 1
  | rvalid t =>
    simp only [calculate_window_multiplier]
    by_cases h1 : t ≤ now
    · simp [h1]
    · rw [if_neg h1, if_neg h1]
      set tf := rmin 1 (rmax 0 ((now - (t - window_duration name))
        / (t - (t - window_duration name)))) with htf
      by_cases h2 : tf = 0
      · rw [if_pos h2, if_pos h2]
      · rw [if_neg h2, if_neg h2]
        have htfpos : 0 < tf := lt_of_le_of_ne (rmin_one_rmax_nonneg _)
          (Ne.symm h2)
        apply pace_bucket_mono
        by_cases h3 : (0 : ℤ) < 100 - pref
        · rw [if_pos h3, if_pos h3]
          have hc : (0 : ℚ) < ((100 - pref : ℤ) : ℚ) := by exact_mod_cast h3
          have hp : ((p1 : ℤ) : ℚ) ≤ ((p2 : ℤ) : ℚ) := by exact_mod_cast h
          gcongr
        · rw [if_neg h3, if_neg h3]

/-- Witness for `window_multiplier_monotone` at concrete percentages. -/
theorem window_multiplier_monotone_witness :
    (calculate_window_multiplier 10 .rnone 30 "weekly" 0).1
      ≤ (calculate_window_multiplier 20 .rnone 30 "weekly" 0).1 :=
  window_multiplier_monotone 10 20 .rnone 30 "weekly" 0 (by norm_num)

/-- C8: a missing reset yields `(1.0, "... No reset time available")`, an
unparsable reset yields `(1.0, "... Invalid reset time")`, a reset at or
before the clock reading yields `(1.0, "... Reset time has passed")`, for
every `percent_used` and preference; and inside the engine each window's
multiplier is computed by an independent call, so such a condition affects
only that window while the other multipliers are computed normally. -/
theorem window_temporal_edge_cases :
    (∀ (p pref : ℤ) (name : String) (now : ℚ),
      calculate_window_multiplier p .rnone pref name now
        = (1, name ++ ": No reset time available")) ∧
    (∀ (p pref : ℤ) (name : String) (now : ℚ),
      calculate_window_multiplier p .rinvalid pref name now
        = (1, name ++ ": Invalid reset time")) ∧
    (∀ (p pref : ℤ) (name : String) (now t : ℚ), t ≤ now →
      calculate_window_multiplier p (.rvalid t) pref name now
        = (1, name ++ ": Reset time has passed")) ∧
    (∀ (name : String) (curr : Option ℤ) (q : Quota) (i : ClaudeInfo)
        (usage : List (String × ℚ)) (now : ℚ),
      (calculate_recommended_interval name curr (some q) (some i) usage
          now).multipliers
        = some { fairness := calculate_fairness_multiplier name usage
                 session_5hour := (calculate_window_multiplier
                   q.session_5hour q.session_5hour_reset
                   i.collaborative_pref "5hr session" now).1
                 weekly := (calculate_window_multiplier q.week_all
                   q.week_reset i.collaborative_pref "weekly" now).1
                 combined := calculate_fairness_multiplier name usage
                   * (calculate_window_multiplier q.session_5hour
                     q.session_5hour_reset i.collaborative_pref
                     "5hr session" now).1
                   * (calculate_window_multiplier q.week_all q.week_reset
                     i.collaborative_pref "weekly" now).1 }) := by
  refine ⟨fun _ _ _ _ => rfl, fun _ _ _ _ => rfl, ?_, fun _ _ _ _ _ _ => rfl⟩
  intro p pref name now t ht
  simp [calculate_window_multiplier, ht]

/-- Witness for `window_temporal_edge_cases`: the stale-reset component at
a concrete input. -/
theorem window_temporal_edge_cases_witness :
    calculate_window_multiplier 10 (.rvalid 0) 30 "weekly" 5
      = (1, "weekly" ++ ": Reset time has passed") :=
  window_temporal_edge_cases.2.2.1 10 30 "weekly" 5 0 (by norm_num)
